import Mathlib

/-!
Verification of the WiX installer image generator
(`scripts/generate-wix-images.py`).

The script is shallowly embedded: Python strings are lists of character
codes (natural numbers), Python float arithmetic is modelled exactly by
rational arithmetic (`ℚ`), Python's `int()` truncation by `pyint`, and the
mutable PIL canvas by a total pixel function `Pix := ℕ → ℕ → Color`
updated by explicit folds that mirror the script's loops.  External
facilities the repository does not contain (PIL font loading and text
rasterisation, logo decoding and resampling, the filesystem) are
parameters of the embedding: a `PILExt` structure of abstract operations
and an existence predicate `fs` on paths.
-/

/-- Python `int()` on a (finite) float value, modelled on `ℚ`:
truncation toward zero. -/
def pyint (q : ℚ) : ℤ := if 0 ≤ q then q.floor else q.ceil

/-! ## Character-level model of `hex_to_rgb` (source lines 25-28)

A Python string is a list of character codes.  `'#'` is code 35, digits
are 48-57, `'a'`-`'f'` are 97-102, `'A'`-`'F'` are 65-70. -/

/-- Code of a hexadecimal digit character, either case. -/
def isHexDigit (c : ℕ) : Bool :=
  decide ((48 ≤ c ∧ c ≤ 57) ∨ (97 ≤ c ∧ c ≤ 102) ∨ (65 ≤ c ∧ c ≤ 70))

/-- Value of a hexadecimal digit character code. -/
def hexDigitVal (c : ℕ) : ℕ :=
  if 48 ≤ c ∧ c ≤ 57 then c - 48
  else if 97 ≤ c ∧ c ≤ 102 then c - 87
  else if 65 ≤ c ∧ c ≤ 70 then c - 55
  else 0

/-- `str.lstrip('#')`: drop every leading `'#'` (code 35). -/
def lstripHash : List ℕ → List ℕ
  | [] => []
  | c :: cs => if c = 35 then lstripHash cs else c :: cs

/-- Python `int(s, 16)` on a slice consisting of hexadecimal digits:
`none` models the `ValueError` on an empty or non-hexadecimal slice. -/
def parseHexStr (l : List ℕ) : Option ℕ :=
  if l ≠ [] ∧ l.all isHexDigit then
    some (l.foldl (fun acc c => 16 * acc + hexDigitVal c) 0)
  else none

/-- `hex_to_rgb` (source lines 25-28): strip `'#'`, then parse the three
two-character slices `s[0:2]`, `s[2:4]`, `s[4:6]` as base-16 integers.
`none` models a propagated parse error. -/
def hex_to_rgb (s : List ℕ) : Option (ℕ × ℕ × ℕ) :=
  let h := lstripHash s
  (parseHexStr ((h.drop 0).take 2)).bind fun r =>
    (parseHexStr ((h.drop 2).take 2)).bind fun g =>
      (parseHexStr ((h.drop 4).take 2)).bind fun b =>
        some (r, g, b)

/-- Lower-case hexadecimal digit character for a value below 16
(spec's round-trip formatter). -/
def hexDigitChar (n : ℕ) : ℕ := if n < 10 then n + 48 else n + 87

/-- Lower-casing of one character code. -/
def toLowerCode (c : ℕ) : ℕ := if 65 ≤ c ∧ c ≤ 90 then c + 32 else c

/-- Modelled from the spec: formatting an RGB triple back as a lowercase
`'#rrggbb'` string ("converting the tuple back to hex"); this direction is
not in the script, only the spec's round-trip property names it. -/
def formatHexColor (r g b : ℕ) : List ℕ :=
  35 :: hexDigitChar (r / 16) :: hexDigitChar (r % 16) ::
    hexDigitChar (g / 16) :: hexDigitChar (g % 16) ::
      hexDigitChar (b / 16) :: hexDigitChar (b % 16) :: []

/-! ## Per-channel linear interpolation (source lines 44-46, 167-169) -/

/-- One gradient channel, `int(a * (1 - factor) + b * factor)` with the
float arithmetic modelled exactly on `ℚ`. -/
def interpChannel (a b : ℕ) (f : ℚ) : ℤ :=
  pyint ((a : ℚ) * (1 - f) + (b : ℚ) * f)

/-! ## The canvas: a total pixel function updated by loops -/

/-- An RGB pixel value. -/
abbrev Color := ℕ × ℕ × ℕ

/-- The pixel contents of a PIL canvas. -/
abbrev Pix := ℕ → ℕ → Color

/-- `img.putpixel((x, y), c)`. -/
def putpixel (p : Pix) (x y : ℕ) (c : Color) : Pix :=
  fun x' y' => if x' = x ∧ y' = y then c else p x' y'

/-- The inner loop `for x in range(w): img.putpixel((x, y0), g(x, y0))`. -/
def rowPass (g : ℕ → ℕ → Color) (w y0 : ℕ) (p : Pix) : Pix :=
  (List.range w).foldl (fun pix x => putpixel pix x y0 (g x y0)) p

/-- The nested loops `for y in range(h): for x in range(w): ...`. -/
def fillPass (g : ℕ → ℕ → Color) (w h : ℕ) (p : Pix) : Pix :=
  (List.range h).foldl (fun pix y => rowPass g w y pix) p

/-! ## The diagonal gradient pass (source lines 37-48 and 160-171) -/

/-- One gradient pixel: each channel interpolated between `dark` and
`dark_lighter` at the diagonal factor. -/
def gradPixel (a b : Color) (f : ℚ) : Color :=
  ((interpChannel a.1 b.1 f).toNat,
   (interpChannel a.2.1 b.2.1 f).toNat,
   (interpChannel a.2.2 b.2.2 f).toNat)

/-- The double loop writing the diagonal gradient: the factor is
`(x + y) / (width + height)` scaled by `k` (0.12 for the banner,
0.15 for the dialog). -/
def gradientPass (w h : ℕ) (k : ℚ) (a b : Color) (p : Pix) : Pix :=
  fillPass
    (fun x y => gradPixel a b (((x : ℚ) + (y : ℚ)) / ((w : ℚ) + (h : ℚ)) * k))
    w h p

/-! ## The palette (source lines 14-23) -/

/-- Character codes of a Lean string literal, used to write the palette's
hex strings. -/
def strCodes (s : String) : List ℕ := s.data.map Char.toNat

/-- `COLORS`: the theme palette, in the script's insertion order. -/
def COLORS : List (String × String) :=
  [("dark", "#0a0a0f"), ("dark_lighter", "#1e1e20"), ("dark_card", "#26262a"),
   ("primary", "#8b5cf6"), ("secondary", "#ec4899"), ("tertiary", "#0ea5e9"),
   ("text", "#ffffff"), ("placeholder", "#a0a0aa")]

/-- `hex_to_rgb(COLORS[k])`: palette lookup followed by conversion. -/
def getColor (k : String) : Option Color :=
  (COLORS.lookup k).bind fun s => hex_to_rgb (strCodes s)

/-! ## The corner glow of the dialog (source lines 284-300) -/

/-- Clamped additive blend of one pixel,
`tuple(min(255, current[k] + color[k]) for k in range(3))`. -/
def blendColor (cur c : Color) : Color :=
  (min 255 (cur.1 + c.1), min 255 (cur.2.1 + c.2.1), min 255 (cur.2.2 + c.2.2))

/-- One guarded glow write: `if x < width and y < height` on the dialog's
493 x 312 canvas, then read, blend, write back. -/
def glowBlendAt (c : Color) (p : Pix) (x y : ℕ) : Pix :=
  if x < 493 ∧ y < 312 then putpixel p x y (blendColor (p x y) c) else p

/-- The body of the inner loop at diagonal `d`: `x = j; y = d - j`. -/
def diagStep (c : Color) (d : ℕ) (p : Pix) (j : ℕ) : Pix :=
  glowBlendAt c p j (d - j)

/-- The inner loop `for j in range(n)` along diagonal `d`. -/
def diagFold (c : Color) (d n : ℕ) (p : Pix) : Pix :=
  (List.range n).foldl (diagStep c d) p

/-- The glow alpha of diagonal `i`: `(1 - i / corner_size) * 0.2`. -/
def alphaGlow (i : ℕ) : ℚ := (1 - (i : ℚ) / 80) * 0.2

/-- The dimmed glow color of diagonal `i`: each channel of the primary
color scaled by the alpha and truncated. -/
def glowColor (pc : Color) (i : ℕ) : Color :=
  ((pyint ((pc.1 : ℚ) * alphaGlow i)).toNat,
   (pyint ((pc.2.1 : ℚ) * alphaGlow i)).toNat,
   (pyint ((pc.2.2 : ℚ) * alphaGlow i)).toNat)

/-- The outer loop `for i in range(n)` of the corner glow. -/
def glowFold (pc : Color) (n : ℕ) (p : Pix) : Pix :=
  (List.range n).foldl (fun pix i => diagFold (glowColor pc i) i i pix) p

/-- The whole corner-glow pass, `corner_size = 80`. -/
def glowPass (pc : Color) (p : Pix) : Pix := glowFold pc 80 p

/-! ## Abstract external facilities

PIL's font loading, text rasterisation and logo decoding, and the
filesystem, are outside the repository; they enter the embedding as the
parameters `PILExt` and `fs` below. -/

/-- An opaque handle to a loaded PIL font. -/
structure FontHandle where
  id : ℕ
deriving DecidableEq

/-- `ImageFont.load_default()`. -/
def defaultFont : FontHandle := ⟨0⟩

/-- Outcome of the risky logo chain (open, resize to the target height
preserving aspect ratio, convert to RGBA): the resized width and the
paste operation at a given position. -/
structure LogoOutcome where
  w : ℕ
  paste : ℤ → ℤ → Pix → Pix

/-- The abstract external facilities used by the generators. -/
structure PILExt where
  truetype : String → ℕ → Except String FontHandle
  textbbox : FontHandle → String → ℤ × ℤ × ℤ × ℤ
  drawText : ℤ → ℤ → String → Color → FontHandle → Pix → Pix
  logoChain : String → ℕ → Except String LogoOutcome

/-- `draw.rectangle([(x0, y0), (x1, y1)], fill=c)`: PIL fills the closed
box; out-of-canvas coordinates are clipped by the canvas bounds kept next
to the pixel function. -/
def rectFill (x0 y0 x1 y1 : ℤ) (c : Color) (p : Pix) : Pix :=
  fun x y =>
    if x0 ≤ (x : ℤ) ∧ (x : ℤ) ≤ x1 ∧ y0 ≤ (y : ℤ) ∧ (y : ℤ) ≤ y1 then c
    else p x y

/-- `tuple(int(c * k) for c in color)` with `k` one of the script's
dimming factors 0.3 and 0.5. -/
def dimColor (k : ℚ) (c : Color) : Color :=
  ((pyint ((c.1 : ℚ) * k)).toNat, (pyint ((c.2.1 : ℚ) * k)).toNat,
   (pyint ((c.2.2 : ℚ) * k)).toNat)

/-- One decorative-squares grid: `rows x cols` squares of side 2 at the
given spacing, alternating two colors by `(row + col) % 2` and dimmed to
30 percent intensity. -/
def squaresPass (sx sy : ℤ) (rows cols spacing : ℕ) (ca cb : Color)
    (p : Pix) : Pix :=
  (List.range rows).foldl (fun pix row =>
    (List.range cols).foldl (fun pix col =>
      let qx := sx + (col : ℤ) * (spacing : ℤ)
      let qy := sy + (row : ℤ) * (spacing : ℤ)
      let c := if (row + col) % 2 = 0 then ca else cb
      rectFill qx qy (qx + 2) (qy + 2) (dimColor 0.3 c) pix) pix) p

/-- The banner's font block (source lines 58-65): one `try` loads both
sizes, any failure falls back to the default font for both. -/
def bannerFonts (ext : PILExt) : FontHandle × FontHandle :=
  match ext.truetype "arial.ttf" 24 with
  | .error _ => (defaultFont, defaultFont)
  | .ok f =>
    match ext.truetype "arial.ttf" 14 with
    | .error _ => (defaultFont, defaultFont)
    | .ok g => (f, g)

/-- The dialog's font block (source lines 182-189). -/
def dialogFonts (ext : PILExt) : FontHandle × FontHandle :=
  match ext.truetype "arial.ttf" 72 with
  | .error _ => (defaultFont, defaultFont)
  | .ok f =>
    match ext.truetype "arial.ttf" 24 with
    | .error _ => (defaultFont, defaultFont)
    | .ok g => (f, g)

/-- A finished canvas: its fixed dimensions and its pixels. -/
structure PImage where
  width : ℕ
  height : ℕ
  pix : Pix

/-- The warning printed when the logo chain fails (lines 94-95, 213-214). -/
def warnLogo (e : String) : String := "Warning: Could not load logo: " ++ e

/-- `create_banner` (source lines 30-151): 493 x 58 canvas, diagonal
gradient, bottom accent, fonts with default fallback, optional logo with
caught failures, title, shadow, subtitle, decorative squares.  The
returned list holds the lines the function prints. -/
def create_banner (ext : PILExt) (fs : String → Bool) (output_path : String)
    (logo_path : Option String) : Option (PImage × List String) :=
  let width : ℕ := 493
  let height : ℕ := 58
  (getColor "dark").bind fun dark =>
  (getColor "dark_lighter").bind fun dark_lighter =>
  (getColor "primary").bind fun primary =>
  (getColor "secondary").bind fun secondary =>
  (getColor "text").bind fun textColor =>
  (getColor "tertiary").bind fun tertiary =>
  let pix0 : Pix := fun _ _ => dark
  let pix1 := gradientPass width height 0.12 dark dark_lighter pix0
  let accent_height : ℕ := 3
  let pix2 := rectFill 0 ((height : ℤ) - (accent_height : ℤ))
    (width : ℤ) (height : ℤ) primary pix1
  let fonts := bannerFonts ext
  let font := fonts.1
  let font_small := fonts.2
  let logo_x : ℤ := 25
  let logo_height : ℕ := height - 16
  let logoStep : Pix × ℤ × List String :=
    match logo_path with
    | some lp =>
      if fs lp then
        match ext.logoChain lp logo_height with
        | .ok o =>
          (o.paste logo_x (((height : ℤ) - (logo_height : ℤ)).fdiv 2) pix2,
           (o.w : ℤ) + 15, [])
        | .error e => (pix2, 0, [warnLogo e])
      else (pix2, 0, [])
    | none => (pix2, 0, [])
  let pix3 := logoStep.1
  let text_x_offset := logoStep.2.1
  let logWarn := logoStep.2.2
  let x := logo_x + text_x_offset
  let tb := ext.textbbox font "KABLE"
  let title_width := tb.2.2.1 - tb.1
  let title_height := tb.2.2.2 - tb.2.1
  let sb := ext.textbbox font_small "Minecraft Launcher"
  let subtitle_height := sb.2.2.2 - sb.2.1
  let total_text_height := title_height + 2
  let y_title := ((height : ℤ) - total_text_height).fdiv 2 - 4
  let dark_purple := dimColor 0.5 primary
  let pix4 := ext.drawText (x + 2) (y_title + 2) "KABLE" dark_purple font pix3
  let pix5 := ext.drawText x y_title "KABLE" secondary font pix4
  let subtitle_y := y_title + (title_height - subtitle_height).fdiv 2
  let pix6 := ext.drawText (x + title_width + 15) subtitle_y
    "Minecraft Launcher" textColor font_small pix5
  let pix7 := squaresPass ((width : ℤ) - 100) 15 3 6 10 primary tertiary pix6
  some (⟨width, height, pix7⟩,
    logWarn ++ ["✓ Created banner: " ++ output_path])

/-- `create_dialog` (source lines 153-304): 493 x 312 canvas, diagonal
gradient, right-edge accent, fonts with default fallback, optional
centered logo with caught failures, centered title with shadow, subtitle,
two decorative-square clusters, and the top-left corner glow. -/
def create_dialog (ext : PILExt) (fs : String → Bool) (output_path : String)
    (logo_path : Option String) : Option (PImage × List String) :=
  let width : ℕ := 493
  let height : ℕ := 312
  (getColor "dark").bind fun dark =>
  (getColor "dark_lighter").bind fun dark_lighter =>
  (getColor "primary").bind fun primary =>
  (getColor "text").bind fun textColor =>
  (getColor "secondary").bind fun secondary =>
  (getColor "tertiary").bind fun tertiary =>
  let pix0 : Pix := fun _ _ => dark
  let pix1 := gradientPass width height 0.15 dark dark_lighter pix0
  let accent_width : ℕ := 3
  let pix2 := rectFill ((width : ℤ) - (accent_width : ℤ)) 0
    (width : ℤ) (height : ℤ) primary pix1
  let fonts := dialogFonts ext
  let font_large := fonts.1
  let font_small := fonts.2
  let logo_height : ℕ := 120
  let logoStep : Pix × List String :=
    match logo_path with
    | some lp =>
      if fs lp then
        match ext.logoChain lp logo_height with
        | .ok o =>
          (o.paste (((width : ℤ) - (o.w : ℤ)).fdiv 2)
            ((height : ℤ).fdiv 4 - (logo_height : ℤ).fdiv 2) pix2, [])
        | .error e => (pix2, [warnLogo e])
      else (pix2, [])
    | none => (pix2, [])
  let pix3 := logoStep.1
  let logWarn := logoStep.2
  let tb := ext.textbbox font_large "KABLE"
  let title_width := tb.2.2.1 - tb.1
  let title_height := tb.2.2.2 - tb.2.1
  let sb := ext.textbbox font_small "Minecraft Launcher"
  let subtitle_width := sb.2.2.1 - sb.1
  let title_x := ((width : ℤ) - title_width).fdiv 2
  let title_y := ((height : ℤ) * 2).fdiv 3 - 20
  let subtitle_x := ((width : ℤ) - subtitle_width).fdiv 2
  let subtitle_y := title_y + title_height + 15
  let pix4 := ext.drawText (title_x + 2) (title_y + 2) "KABLE" (0, 0, 0)
    font_large pix3
  let pix5 := ext.drawText title_x title_y "KABLE" primary font_large pix4
  let pix6 := ext.drawText subtitle_x subtitle_y "Minecraft Launcher"
    textColor font_small pix5
  let pix7 := squaresPass 20 ((height : ℤ) - 60) 4 6 12 primary tertiary pix6
  let pix8 := squaresPass ((width : ℤ) - 90) ((height : ℤ) - 60) 4 6 12
    secondary tertiary pix7
  let pix9 := glowPass primary pix8
  some (⟨width, height, pix9⟩,
    logWarn ++ ["✓ Created dialog: " ++ output_path])

/-- `os.path.join` for relative components. -/
def pathJoin (a b : String) : String := a ++ "/" ++ b

/-- Resolution of the optional logo path (source lines 313-320): the
primary candidate `static/favicon.png` first, then the fallback
`src-tauri/icons/icon.png`, otherwise no logo plus a printed warning. -/
def resolveLogoPath (project_root : String) (fs : String → Bool) :
    Option String × List String :=
  let cand1 := pathJoin (pathJoin project_root "static") "favicon.png"
  if fs cand1 then (some cand1, [])
  else
    let cand2 :=
      pathJoin (pathJoin (pathJoin project_root "src-tauri") "icons") "icon.png"
    if fs cand2 then (some cand2, [])
    else (none, ["Warning: Logo not found, generating without logo"])

/-- `main` (source lines 306-342): resolve the output paths and the
optional logo, run both generators in sequence on the same logo path, and
collect every printed line.  (`os.makedirs(img_dir, exist_ok=True)` is a
filesystem effect outside the pixel model.) -/
def mainEntry (script_dir : String) (fs : String → Bool) (ext : PILExt) :
    Option (List (String × PImage) × List String) :=
  let project_root := pathJoin script_dir ".."
  let wix_dir := pathJoin (pathJoin project_root "src-tauri") "wix"
  let img_dir := pathJoin wix_dir "img"
  let resolved := resolveLogoPath project_root fs
  let logo_path := resolved.1
  let banner_path := pathJoin img_dir "banner.bmp"
  let dialog_path := pathJoin img_dir "dialog.bmp"
  let header := resolved.2 ++
    ["Generating WiX installer images...", "Output directory: " ++ wix_dir] ++
    (match logo_path with
     | some lp => ["Using logo: " ++ lp]
     | none => []) ++ [""]
  (create_banner ext fs banner_path logo_path).bind fun rb =>
    (create_dialog ext fs dialog_path logo_path).bind fun rd =>
      some ([(banner_path, rb.1), (dialog_path, rd.1)],
        header ++ rb.2 ++ rd.2 ++
          ["", "✓ All images generated successfully!", "", "Theme colors used:"]
          ++ COLORS.map (fun kv => "  " ++ kv.1 ++ ": " ++ kv.2))

/-- A concrete instance of the external facilities used by witnesses: the
font is missing and the logo file is present but not an image. -/
def extProbe : PILExt where
  truetype := fun _ _ => .error "font missing"
  textbbox := fun _ _ => (0, 0, 10, 10)
  drawText := fun _ _ _ _ _ p => p
  logoChain := fun _ _ => .error "not an image"

/-- On nonnegative arguments Python `int()` is the floor. -/
theorem pyint_eq_floor (q : ℚ) (h : 0 ≤ q) : pyint q = ⌊q⌋ := by
  simp only [pyint, if_pos h]
  rw [Rat.floor_def, Rat.floor_def']

/-- Evaluation rule for `pyint` on a nonnegative value pinned between
consecutive integers. -/
theorem pyint_eval (q : ℚ) (n : ℕ) (h1 : (n : ℚ) ≤ q) (h2 : q < n + 1) :
    pyint q = n := by
  rw [pyint_eq_floor q (le_trans (by positivity) h1)]
  rw [Int.floor_eq_iff]
  constructor
  · exact_mod_cast h1
  · push_cast
    exact h2

/-- A hexadecimal digit has value below 16, and re-printing that value in
lower case is the lower-casing of the digit. -/
theorem hexDigit_roundtrip (c : ℕ) (h : isHexDigit c = true) :
    hexDigitVal c < 16 ∧ hexDigitChar (hexDigitVal c) = toLowerCode c := by
  simp only [isHexDigit, decide_eq_true_eq] at h
  simp only [hexDigitVal, hexDigitChar, toLowerCode]
  rcases h with h | h | h
  · rw [if_pos (by omega)]
    constructor
    · omega
    · rw [if_pos (by omega), if_neg (by omega)]
      omega
  · rw [if_neg (by omega), if_pos (by omega)]
    constructor
    · omega
    · rw [if_neg (by omega), if_neg (by omega)]
      omega
  · rw [if_neg (by omega), if_neg (by omega), if_pos (by omega)]
    constructor
    · omega
    · rw [if_neg (by omega), if_pos (by omega)]
      omega

/-- C1: for every valid 6-digit hexadecimal color string `'#rrggbb'`,
`hex_to_rgb` returns a triple of integers in `[0, 255]`, and formatting
the triple back as a lowercase `'#rrggbb'` string reproduces the
case-normalized input. -/
theorem hex_to_rgb_roundtrip (c1 c2 c3 c4 c5 c6 : ℕ)
    (h1 : isHexDigit c1 = true) (h2 : isHexDigit c2 = true)
    (h3 : isHexDigit c3 = true) (h4 : isHexDigit c4 = true)
    (h5 : isHexDigit c5 = true) (h6 : isHexDigit c6 = true) :
    ∃ r g b, hex_to_rgb [35, c1, c2, c3, c4, c5, c6] = some (r, g, b) ∧
      r ≤ 255 ∧ g ≤ 255 ∧ b ≤ 255 ∧
      formatHexColor r g b =
        List.map toLowerCode [35, c1, c2, c3, c4, c5, c6] := by
  obtain ⟨v1, p1⟩ := hexDigit_roundtrip c1 h1
  obtain ⟨v2, p2⟩ := hexDigit_roundtrip c2 h2
  obtain ⟨v3, p3⟩ := hexDigit_roundtrip c3 h3
  obtain ⟨v4, p4⟩ := hexDigit_roundtrip c4 h4
  obtain ⟨v5, p5⟩ := hexDigit_roundtrip c5 h5
  obtain ⟨v6, p6⟩ := hexDigit_roundtrip c6 h6
  have hne : (35 : ℕ) ≠ 35 → False := fun h => h rfl
  refine ⟨16 * hexDigitVal c1 + hexDigitVal c2,
          16 * hexDigitVal c3 + hexDigitVal c4,
          16 * hexDigitVal c5 + hexDigitVal c6, ?_, ?_, ?_, ?_, ?_⟩
  · simp only [hex_to_rgb, lstripHash, if_pos rfl]
    have e1 : isHexDigit c1 = true → ¬(c1 = 35) := by
      simp only [isHexDigit, decide_eq_true_eq]
      omega
    rw [if_neg (e1 h1)]
    simp only [List.drop, List.take, parseHexStr, List.all_cons, List.all_nil,
      h1, h2, h3, h4, h5, h6, Bool.and_true, Bool.true_and, ne_eq,
      reduceCtorEq, not_false_eq_true, true_and, if_pos, List.foldl,
      Option.some_bind, Option.some.injEq, Prod.mk.injEq]
    refine ⟨by omega, by omega, by omega⟩
  · omega
  · omega
  · omega
  · simp only [formatHexColor, List.map, toLowerCode]
    rw [if_neg (by omega)]
    have q1 : (16 * hexDigitVal c1 + hexDigitVal c2) / 16 = hexDigitVal c1 := by
      omega
    have q2 : (16 * hexDigitVal c1 + hexDigitVal c2) % 16 = hexDigitVal c2 := by
      omega
    have q3 : (16 * hexDigitVal c3 + hexDigitVal c4) / 16 = hexDigitVal c3 := by
      omega
    have q4 : (16 * hexDigitVal c3 + hexDigitVal c4) % 16 = hexDigitVal c4 := by
      omega
    have q5 : (16 * hexDigitVal c5 + hexDigitVal c6) / 16 = hexDigitVal c5 := by
      omega
    have q6 : (16 * hexDigitVal c5 + hexDigitVal c6) % 16 = hexDigitVal c6 := by
      omega
    rw [q1, q2, q3, q4, q5, q6, p1, p2, p3, p4, p5, p6]
    simp [toLowerCode]

/-- Witness for C1 at the concrete input `"#8B5cF6"`. -/
theorem hex_to_rgb_roundtrip_witness :
    isHexDigit 56 = true ∧ isHexDigit 66 = true ∧ isHexDigit 53 = true ∧
      isHexDigit 99 = true ∧ isHexDigit 70 = true ∧ isHexDigit 54 = true ∧
      (∃ r g b, hex_to_rgb [35, 56, 66, 53, 99, 70, 54] = some (r, g, b) ∧
        r ≤ 255 ∧ g ≤ 255 ∧ b ≤ 255 ∧
        formatHexColor r g b =
          List.map toLowerCode [35, 56, 66, 53, 99, 70, 54]) :=
  ⟨by decide, by decide, by decide, by decide, by decide, by decide,
    hex_to_rgb_roundtrip 56 66 53 99 70 54 (by decide) (by decide)
      (by decide) (by decide) (by decide) (by decide)⟩

/-- The interpolated quantity is nonnegative for a factor in `[0, 1]`. -/
theorem interpArg_nonneg (a b : ℕ) (f : ℚ) (h0 : 0 ≤ f) (h1 : f ≤ 1) :
    0 ≤ (a : ℚ) * (1 - f) + (b : ℚ) * f := by
  have ha : (0 : ℚ) ≤ (a : ℚ) := by positivity
  have hb : (0 : ℚ) ≤ (b : ℚ) := by positivity
  nlinarith

/-- C2: the per-channel gradient interpolation equals the start channel at
factor 0, the end channel at factor 1, and is monotone in the factor over
`[0, 1]`: nondecreasing when `a ≤ b` and nonincreasing when `b ≤ a`. -/
theorem interpChannel_monotone (a b : ℕ) (f1 f2 : ℚ)
    (hf0 : 0 ≤ f1) (hff : f1 ≤ f2) (hf1 : f2 ≤ 1) :
    interpChannel a b 0 = a ∧ interpChannel a b 1 = b ∧
      (a ≤ b → interpChannel a b f1 ≤ interpChannel a b f2) ∧
      (b ≤ a → interpChannel a b f2 ≤ interpChannel a b f1) := by
  have e0 : interpChannel a b 0 = a := by
    simp only [interpChannel]
    rw [pyint_eq_floor _ (by positivity)]
    rw [show ((a : ℚ) * (1 - 0) + (b : ℚ) * 0) = (a : ℚ) by ring]
    exact Int.floor_natCast a
  have e1 : interpChannel a b 1 = b := by
    simp only [interpChannel]
    rw [show ((a : ℚ) * (1 - 1) + (b : ℚ) * 1) = (b : ℚ) by ring]
    rw [pyint_eq_floor _ (by positivity)]
    exact Int.floor_natCast b
  refine ⟨e0, e1, ?_, ?_⟩
  · intro hab
    have hab' : (a : ℚ) ≤ (b : ℚ) := by exact_mod_cast hab
    simp only [interpChannel]
    rw [pyint_eq_floor _ (interpArg_nonneg a b f1 hf0 (le_trans hff hf1)),
      pyint_eq_floor _ (interpArg_nonneg a b f2 (le_trans hf0 hff) hf1)]
    apply Int.floor_le_floor
    nlinarith
  · intro hba
    have hba' : (b : ℚ) ≤ (a : ℚ) := by exact_mod_cast hba
    simp only [interpChannel]
    rw [pyint_eq_floor _ (interpArg_nonneg a b f1 hf0 (le_trans hff hf1)),
      pyint_eq_floor _ (interpArg_nonneg a b f2 (le_trans hf0 hff) hf1)]
    apply Int.floor_le_floor
    nlinarith

/-- Witness for C2 at channels 10 and 246 and factors 0 and 1. -/
theorem interpChannel_monotone_witness :
    (0 : ℚ) ≤ 0 ∧ (0 : ℚ) ≤ 1 ∧ (1 : ℚ) ≤ 1 ∧
      (interpChannel 10 246 0 = 10 ∧ interpChannel 10 246 1 = 246 ∧
        (10 ≤ 246 → interpChannel 10 246 0 ≤ interpChannel 10 246 1) ∧
        (246 ≤ 10 → interpChannel 10 246 1 ≤ interpChannel 10 246 0)) :=
  ⟨le_refl 0, zero_le_one, le_refl 1,
    interpChannel_monotone 10 246 0 1 (le_refl 0) zero_le_one (le_refl 1)⟩

theorem rowPass_apply (g : ℕ → ℕ → Color) (w y0 : ℕ) (p : Pix) (x y : ℕ) :
    rowPass g w y0 p x y = if x < w ∧ y = y0 then g x y0 else p x y := by
  induction w generalizing p with
  | zero => simp [rowPass]
  | succ n ih =>
    rw [rowPass, List.range_succ, List.foldl_append]
    rw [show ((List.range n).foldl (fun pix x => putpixel pix x y0 (g x y0)) p)
        = rowPass g n y0 p from rfl]
    simp only [List.foldl_cons, List.foldl_nil, putpixel]
    by_cases hx : x = n ∧ y = y0
    · obtain ⟨hx1, hx2⟩ := hx
      subst hx1
      subst hx2
      rw [if_pos ⟨rfl, rfl⟩, if_pos (by omega)]
    · rw [if_neg hx, ih]
      by_cases hlt : x < n ∧ y = y0
      · rw [if_pos hlt, if_pos (by omega)]
      · rw [if_neg hlt, if_neg (by omega)]

theorem fillPass_apply (g : ℕ → ℕ → Color) (w h : ℕ) (p : Pix) (x y : ℕ) :
    fillPass g w h p x y = if x < w ∧ y < h then g x y else p x y := by
  induction h generalizing p with
  | zero => simp [fillPass]
  | succ n ih =>
    rw [fillPass, List.range_succ, List.foldl_append]
    rw [show ((List.range n).foldl (fun pix y => rowPass g w y pix) p)
        = fillPass g w n p from rfl]
    simp only [List.foldl_cons, List.foldl_nil]
    rw [rowPass_apply, ih]
    by_cases hy : x < w ∧ y = n
    · rw [if_pos hy, if_pos (by omega)]
      rw [hy.2]
    · rw [if_neg hy]
      by_cases hlt : x < w ∧ y < n
      · rw [if_pos hlt, if_pos (by omega)]
      · rw [if_neg hlt, if_neg (by omega)]

theorem diagFold_apply (c : Color) (d : ℕ) (hd : d ≤ 311) (n : ℕ) :
    ∀ p x y, n ≤ d →
      diagFold c d n p x y =
        if x < n ∧ y = d - x then blendColor (p x y) c else p x y := by
  induction n with
  | zero =>
    intro p x y _
    simp [diagFold]
  | succ m ih =>
    intro p x y hnd
    rw [diagFold, List.range_succ, List.foldl_append]
    rw [show (List.range m).foldl (diagStep c d) p = diagFold c d m p from rfl]
    simp only [List.foldl_cons, List.foldl_nil, diagStep, glowBlendAt]
    rw [if_pos ⟨by omega, by omega⟩]
    simp only [putpixel]
    by_cases hx : x = m ∧ y = d - m
    · obtain ⟨hx1, hx2⟩ := hx
      subst hx1
      subst hx2
      rw [if_pos ⟨rfl, rfl⟩, if_pos (by omega)]
      congr 1
      rw [ih p x (d - x) (by omega), if_neg (by omega)]
    · rw [if_neg hx, ih p x y (by omega)]
      by_cases hlt : x < m ∧ y = d - x
      · rw [if_pos hlt, if_pos (by omega)]
      · rw [if_neg hlt, if_neg (by omega)]

theorem glowFold_apply (pc : Color) (n : ℕ) :
    ∀ p x y, n ≤ 80 →
      glowFold pc n p x y =
        if 1 ≤ y ∧ x + y < n then blendColor (p x y) (glowColor pc (x + y))
        else p x y := by
  induction n with
  | zero =>
    intro p x y _
    simp [glowFold]
  | succ m ih =>
    intro p x y hn
    rw [glowFold, List.range_succ, List.foldl_append]
    rw [show (List.range m).foldl
        (fun pix i => diagFold (glowColor pc i) i i pix) p
        = glowFold pc m p from rfl]
    simp only [List.foldl_cons, List.foldl_nil]
    rw [diagFold_apply (glowColor pc m) m (by omega) m (glowFold pc m p) x y
      (le_refl m)]
    by_cases hx : x < m ∧ y = m - x
    · rw [if_pos hx, ih p x y (by omega), if_neg (by omega), if_pos (by omega)]
      have hxy : x + y = m := by omega
      rw [hxy]
    · rw [if_neg hx, ih p x y (by omega)]
      by_cases hlt : 1 ≤ y ∧ x + y < m
      · rw [if_pos hlt, if_pos (by omega)]
      · rw [if_neg hlt, if_neg (by omega)]

/-- Pointwise characterization of the corner-glow pass: a pixel with
`y ≥ 1` and `x + y < 80` receives one clamped additive blend of the
diagonal's glow color; every other pixel is untouched. -/
theorem glowPass_apply (pc : Color) (p : Pix) (x y : ℕ) :
    glowPass pc p x y =
      if 1 ≤ y ∧ x + y < 80 then blendColor (p x y) (glowColor pc (x + y))
      else p x y := by
  rw [glowPass, glowFold_apply pc 80 p x y (le_refl 80)]

/-- C3: during the corner-glow pass every written pixel holds the clamped
additive blend `min(255, current + glow)`, so no channel exceeds 255. -/
theorem glow_channels_le_255 (pc : Color) (p : Pix) (x y : ℕ)
    (hy : 1 ≤ y) (hxy : x + y ≤ 79) :
    glowPass pc p x y = blendColor (p x y) (glowColor pc (x + y)) ∧
      (glowPass pc p x y).1 ≤ 255 ∧ (glowPass pc p x y).2.1 ≤ 255 ∧
      (glowPass pc p x y).2.2 ≤ 255 := by
  have h := glowPass_apply pc p x y
  rw [if_pos ⟨hy, by omega⟩] at h
  refine ⟨h, ?_, ?_, ?_⟩ <;> rw [h] <;> simp [blendColor]

/-- Witness for C3 at pixel (3, 5) of a canvas holding the dark
background, with the palette's primary glow color. -/
theorem glow_channels_le_255_witness :
    1 ≤ 5 ∧ 3 + 5 ≤ 79 ∧
      (glowPass (139, 92, 246) (fun _ _ => ((10, 10, 15) : Color)) 3 5 =
          blendColor ((fun _ _ => ((10, 10, 15) : Color)) 3 5)
            (glowColor (139, 92, 246) (3 + 5)) ∧
        (glowPass (139, 92, 246) (fun _ _ => ((10, 10, 15) : Color)) 3 5).1
            ≤ 255 ∧
        (glowPass (139, 92, 246) (fun _ _ => ((10, 10, 15) : Color)) 3 5).2.1
            ≤ 255 ∧
        (glowPass (139, 92, 246) (fun _ _ => ((10, 10, 15) : Color)) 3 5).2.2
            ≤ 255) :=
  ⟨by decide, by decide,
    glow_channels_le_255 (139, 92, 246) (fun _ _ => ((10, 10, 15) : Color))
      3 5 (by decide) (by decide)⟩

/-- C10: the corner-glow pass is frame-bounded: every pixel outside the
triangular region `y ≥ 1 ∧ x + y ≤ 79` keeps its value, and the value the
pass gives a pixel depends only on that same pixel's previous value. -/
theorem glow_frame (pc : Color) (p q : Pix) (x y : ℕ) :
    (¬(1 ≤ y ∧ x + y ≤ 79) → glowPass pc p x y = p x y) ∧
      (p x y = q x y → glowPass pc p x y = glowPass pc q x y) := by
  constructor
  · intro h
    rw [glowPass_apply, if_neg (by omega)]
  · intro h
    rw [glowPass_apply, glowPass_apply]
    by_cases hc : 1 ≤ y ∧ x + y < 80
    · rw [if_pos hc, if_pos hc, h]
    · rw [if_neg hc, if_neg hc, h]

/-- Witness for C10 at the untouched pixel (100, 100) and the touched
pixel (3, 5) of the dark background canvas. -/
theorem glow_frame_witness :
    (¬(1 ≤ 100 ∧ 100 + 100 ≤ 79) →
        glowPass (139, 92, 246) (fun _ _ => ((10, 10, 15) : Color)) 100 100 =
          (fun _ _ => ((10, 10, 15) : Color)) 100 100) ∧
      ((fun _ _ => ((10, 10, 15) : Color)) 100 100 =
            (fun _ _ => ((10, 10, 15) : Color)) 100 100 →
        glowPass (139, 92, 246) (fun _ _ => ((10, 10, 15) : Color)) 100 100 =
          glowPass (139, 92, 246) (fun _ _ => ((10, 10, 15) : Color)) 100 100) :=
  glow_frame (139, 92, 246) (fun _ _ => ((10, 10, 15) : Color))
    (fun _ _ => ((10, 10, 15) : Color)) 100 100

/-- A factor in `[0, 1]` keeps the interpolated channel nonnegative. -/
theorem interpChannel_nonneg (a b : ℕ) (f : ℚ) (h0 : 0 ≤ f) (h1 : f ≤ 1) :
    0 ≤ interpChannel a b f := by
  rw [interpChannel, pyint_eq_floor _ (interpArg_nonneg a b f h0 h1)]
  exact Int.floor_nonneg.mpr (interpArg_nonneg a b f h0 h1)

/-- C4: every pixel (x, y) of the 493 x 58 banner canvas is written by
the gradient pass with, channel-wise, `int(dark_c * (1 - f) +
dark_lighter_c * f)` at `f = ((x + y) / (width + height)) * 0.12`, where
the palette's dark is (10, 10, 15) and dark_lighter is (30, 30, 32). -/
theorem banner_gradient_pixels (p : Pix) (x y : ℕ)
    (hx : x < 493) (hy : y < 58) :
    getColor "dark" = some (10, 10, 15) ∧
      getColor "dark_lighter" = some (30, 30, 32) ∧
      (((gradientPass 493 58 0.12 (10, 10, 15) (30, 30, 32) p x y).1 : ℤ) =
          interpChannel 10 30 (((x : ℚ) + (y : ℚ)) / (493 + 58) * 0.12) ∧
        ((gradientPass 493 58 0.12 (10, 10, 15) (30, 30, 32) p x y).2.1 : ℤ) =
          interpChannel 10 30 (((x : ℚ) + (y : ℚ)) / (493 + 58) * 0.12) ∧
        ((gradientPass 493 58 0.12 (10, 10, 15) (30, 30, 32) p x y).2.2 : ℤ) =
          interpChannel 15 32 (((x : ℚ) + (y : ℚ)) / (493 + 58) * 0.12)) := by
  have hdark : getColor "dark" = some (10, 10, 15) := by decide
  have hdl : getColor "dark_lighter" = some (30, 30, 32) := by decide
  have hf0 : (0 : ℚ) ≤ ((x : ℚ) + (y : ℚ)) / ((493 : ℕ) + (58 : ℕ) : ℚ) * 0.12 := by
    positivity
  have hxq : (x : ℚ) ≤ 492 := by exact_mod_cast Nat.le_of_lt_succ (by omega)
  have hyq : (y : ℚ) ≤ 57 := by exact_mod_cast Nat.le_of_lt_succ (by omega)
  have hf1 : ((x : ℚ) + (y : ℚ)) / ((493 : ℕ) + (58 : ℕ) : ℚ) * 0.12 ≤ 1 := by
    have hx0 : (0 : ℚ) ≤ (x : ℚ) := by positivity
    have hy0 : (0 : ℚ) ≤ (y : ℚ) := by positivity
    push_cast
    nlinarith
  refine ⟨hdark, hdl, ?_⟩
  rw [gradientPass, fillPass_apply, if_pos ⟨hx, hy⟩]
  simp only [gradPixel]
  rw [Int.toNat_of_nonneg (interpChannel_nonneg 10 30 _ hf0 hf1),
    Int.toNat_of_nonneg (interpChannel_nonneg 15 32 _ hf0 hf1)]
  refine ⟨?_, ?_, ?_⟩ <;> congr 1

/-- Witness for C4 at pixel (100, 30). -/
theorem banner_gradient_pixels_witness :
    100 < 493 ∧ 30 < 58 ∧
      (getColor "dark" = some (10, 10, 15) ∧
        getColor "dark_lighter" = some (30, 30, 32) ∧
        (((gradientPass 493 58 0.12 (10, 10, 15) (30, 30, 32)
              (fun _ _ => ((10, 10, 15) : Color)) 100 30).1 : ℤ) =
            interpChannel 10 30 (((100 : ℚ) + (30 : ℚ)) / (493 + 58) * 0.12) ∧
          ((gradientPass 493 58 0.12 (10, 10, 15) (30, 30, 32)
              (fun _ _ => ((10, 10, 15) : Color)) 100 30).2.1 : ℤ) =
            interpChannel 10 30 (((100 : ℚ) + (30 : ℚ)) / (493 + 58) * 0.12) ∧
          ((gradientPass 493 58 0.12 (10, 10, 15) (30, 30, 32)
              (fun _ _ => ((10, 10, 15) : Color)) 100 30).2.2 : ℤ) =
            interpChannel 15 32 (((100 : ℚ) + (30 : ℚ)) / (493 + 58) * 0.12))) :=
  ⟨by decide, by decide,
    banner_gradient_pixels (fun _ _ => ((10, 10, 15) : Color)) 100 30
      (by decide) (by decide)⟩

/-- C5 counterexample: the in-bounds pixel (1, 0) lies on diagonal
`i = 1` inside the corner radius, yet the glow pass leaves it unchanged,
although blending diagonal 1's glow color onto it would have changed it:
the inner loop `for j in range(i)` stops before `j = i`, so the pixel
`(i, 0)` of each diagonal is never written. -/
theorem glow_diag_counterexample :
    getColor "primary" = some (139, 92, 246) ∧
      glowPass (139, 92, 246) (fun _ _ => ((10, 10, 15) : Color)) 1 0 =
        (10, 10, 15) ∧
      blendColor (10, 10, 15) (glowColor (139, 92, 246) 1) ≠ (10, 10, 15) := by
  refine ⟨by decide, ?_, ?_⟩
  · rw [glowPass_apply, if_neg (by omega)]
  · have h1 : pyint ((139 : ℚ) * alphaGlow 1) = 27 :=
      pyint_eval _ 27 (by norm_num [alphaGlow]) (by norm_num [alphaGlow])
    have h2 : pyint ((92 : ℚ) * alphaGlow 1) = 18 :=
      pyint_eval _ 18 (by norm_num [alphaGlow]) (by norm_num [alphaGlow])
    have h3 : pyint ((246 : ℚ) * alphaGlow 1) = 48 :=
      pyint_eval _ 48 (by norm_num [alphaGlow]) (by norm_num [alphaGlow])
    simp only [glowColor]
    norm_num
    rw [h1, h2, h3]
    decide

/-- C5 (amended): for each diagonal distance i up to the radius, the
dimmed primary color with alpha decreasing in i is additively blended
onto every pixel (x, y) of that diagonal with y >= 1 — the diagonal's
pixel (i, 0) on the x axis is skipped by the inner loop. -/
theorem glow_diag_blend (p : Pix) (i x y : ℕ)
    (hi : i ≤ 79) (hxy : x + y = i) (hy : 1 ≤ y) :
    getColor "primary" = some (139, 92, 246) ∧
      glowPass (139, 92, 246) p x y =
        blendColor (p x y) (glowColor (139, 92, 246) i) ∧
      (∀ i1 i2 : ℕ, i1 ≤ i2 → alphaGlow i2 ≤ alphaGlow i1) := by
  refine ⟨by decide, ?_, ?_⟩
  · rw [glowPass_apply, if_pos ⟨hy, by omega⟩, hxy]
  · intro i1 i2 h
    have hc : (i1 : ℚ) ≤ (i2 : ℚ) := by exact_mod_cast h
    simp only [alphaGlow]
    have e : (0.2 : ℚ) = 1 / 5 := by norm_num
    rw [e]
    linarith

/-- Witness for the amended C5 at pixel (0, 1) on diagonal 1. -/
theorem glow_diag_blend_witness :
    1 ≤ 79 ∧ 0 + 1 = 1 ∧ 1 ≤ 1 ∧
      (getColor "primary" = some (139, 92, 246) ∧
        glowPass (139, 92, 246) (fun _ _ => ((10, 10, 15) : Color)) 0 1 =
          blendColor ((fun _ _ => ((10, 10, 15) : Color)) 0 1)
            (glowColor (139, 92, 246) 1) ∧
        (∀ i1 i2 : ℕ, i1 ≤ i2 → alphaGlow i2 ≤ alphaGlow i1)) :=
  ⟨by decide, by decide, by decide,
    glow_diag_blend (fun _ _ => ((10, 10, 15) : Color)) 1 0 1
      (by decide) (by decide) (by decide)⟩

/-! ## Evaluation of the palette lookups -/

theorem getColor_dark : getColor "dark" = some (10, 10, 15) := by decide

theorem getColor_dark_lighter :
    getColor "dark_lighter" = some (30, 30, 32) := by decide

theorem getColor_primary : getColor "primary" = some (139, 92, 246) := by
  decide

theorem getColor_secondary :
    getColor "secondary" = some (236, 72, 153) := by decide

theorem getColor_text : getColor "text" = some (255, 255, 255) := by decide

theorem getColor_tertiary :
    getColor "tertiary" = some (14, 165, 233) := by decide

/-- Every run of the banner generator yields a 493 x 58 image. -/
theorem create_banner_shape (ext : PILExt) (fs : String → Bool) (op : String)
    (lp : Option String) :
    ∃ pix log, create_banner ext fs op lp = some (⟨493, 58, pix⟩, log) := by
  cases lp with
  | none =>
    simp [create_banner, getColor_dark, getColor_dark_lighter, getColor_primary,
      getColor_secondary, getColor_text, getColor_tertiary]
  | some p =>
    cases hfs : fs p with
    | false =>
      simp [create_banner, getColor_dark, getColor_dark_lighter, getColor_primary,
        getColor_secondary, getColor_text, getColor_tertiary, hfs]
    | true =>
      simp only [create_banner, getColor_dark, getColor_dark_lighter,
        getColor_primary, getColor_secondary, getColor_text, getColor_tertiary,
        Option.some_bind, hfs]
      cases hlc : ext.logoChain p (58 - 16) with
      | ok o =>
        simp
      | error e =>
        simp

/-- Every run of the dialog generator yields a 493 x 312 image. -/
theorem create_dialog_shape (ext : PILExt) (fs : String → Bool) (od : String)
    (lp : Option String) :
    ∃ pix log, create_dialog ext fs od lp = some (⟨493, 312, pix⟩, log) := by
  cases lp with
  | none =>
    simp [create_dialog, getColor_dark, getColor_dark_lighter, getColor_primary,
      getColor_secondary, getColor_text, getColor_tertiary]
  | some p =>
    cases hfs : fs p with
    | false =>
      simp [create_dialog, getColor_dark, getColor_dark_lighter, getColor_primary,
        getColor_secondary, getColor_text, getColor_tertiary, hfs]
    | true =>
      simp only [create_dialog, getColor_dark, getColor_dark_lighter,
        getColor_primary, getColor_secondary, getColor_text, getColor_tertiary,
        Option.some_bind, hfs]
      cases hlc : ext.logoChain p 120 with
      | ok o =>
        simp
      | error e =>
        simp

/-- C8: if the logo chain (open, resize, convert, paste) fails in either
generator, the failure is caught: the generator returns exactly the image
of a run without the logo, with the warning line prepended to its printed
output, and that image has the documented fixed size. -/
theorem logo_failure_recovered (ext : PILExt) (fs : String → Bool)
    (op od p e e2 : String) (hfs : fs p = true)
    (hb : ext.logoChain p 42 = .error e)
    (hd : ext.logoChain p 120 = .error e2) :
    (create_banner ext fs op (some p) =
        (create_banner ext fs op none).map
          (fun r => (r.1, warnLogo e :: r.2)) ∧
      (∃ pix, create_banner ext fs op none =
        some (⟨493, 58, pix⟩, ["✓ Created banner: " ++ op]))) ∧
    (create_dialog ext fs od (some p) =
        (create_dialog ext fs od none).map
          (fun r => (r.1, warnLogo e2 :: r.2)) ∧
      (∃ pix, create_dialog ext fs od none =
        some (⟨493, 312, pix⟩, ["✓ Created dialog: " ++ od]))) := by
  refine ⟨⟨?_, ?_⟩, ⟨?_, ?_⟩⟩
  · simp [create_banner, getColor_dark, getColor_dark_lighter, getColor_primary,
      getColor_secondary, getColor_text, getColor_tertiary, hfs, hb]
  · simp [create_banner, getColor_dark, getColor_dark_lighter, getColor_primary,
      getColor_secondary, getColor_text, getColor_tertiary]
  · simp [create_dialog, getColor_dark, getColor_dark_lighter, getColor_primary,
      getColor_secondary, getColor_text, getColor_tertiary, hfs, hd]
  · simp [create_dialog, getColor_dark, getColor_dark_lighter, getColor_primary,
      getColor_secondary, getColor_text, getColor_tertiary]

/-- Witness for C8: a probe environment whose logo chain always fails on
a present file. -/
theorem logo_failure_recovered_witness :
    (fun _ : String => true) "logo.png" = true ∧
      extProbe.logoChain "logo.png" 42 = .error "not an image" ∧
      extProbe.logoChain "logo.png" 120 = .error "not an image" ∧
      ((create_banner extProbe (fun _ => true) "banner.bmp" (some "logo.png") =
          (create_banner extProbe (fun _ => true) "banner.bmp" none).map
            (fun r => (r.1, warnLogo "not an image" :: r.2)) ∧
        (∃ pix, create_banner extProbe (fun _ => true) "banner.bmp" none =
          some (⟨493, 58, pix⟩, ["✓ Created banner: " ++ "banner.bmp"]))) ∧
      (create_dialog extProbe (fun _ => true) "dialog.bmp" (some "logo.png") =
          (create_dialog extProbe (fun _ => true) "dialog.bmp" none).map
            (fun r => (r.1, warnLogo "not an image" :: r.2)) ∧
        (∃ pix, create_dialog extProbe (fun _ => true) "dialog.bmp" none =
          some (⟨493, 312, pix⟩, ["✓ Created dialog: " ++ "dialog.bmp"])))) :=
  ⟨rfl, rfl, rfl,
    logo_failure_recovered extProbe (fun _ => true) "banner.bmp" "dialog.bmp"
      "logo.png" "not an image" "not an image" rfl rfl rfl⟩

/-- C9: a failing truetype load in either generator falls back to the
built-in default font for both the title and the subtitle font, no error
is surfaced (the generator still returns an image), and the image has the
documented fixed size. -/
theorem font_failure_recovered (ext : PILExt) (fs : String → Bool)
    (op od : String) (lp : Option String) (e : String) :
    ((ext.truetype "arial.ttf" 24 = .error e ∨
        ext.truetype "arial.ttf" 14 = .error e) →
      bannerFonts ext = (defaultFont, defaultFont)) ∧
    ((ext.truetype "arial.ttf" 72 = .error e ∨
        ext.truetype "arial.ttf" 24 = .error e) →
      dialogFonts ext = (defaultFont, defaultFont)) ∧
    (∃ pix log, create_banner ext fs op lp = some (⟨493, 58, pix⟩, log)) ∧
    (∃ pix log, create_dialog ext fs od lp = some (⟨493, 312, pix⟩, log)) := by
  refine ⟨?_, ?_, create_banner_shape ext fs op lp,
    create_dialog_shape ext fs od lp⟩
  · rintro (h | h)
    · rw [bannerFonts, h]
    · cases h24 : ext.truetype "arial.ttf" 24 with
      | error f => rw [bannerFonts, h24]
      | ok f => rw [bannerFonts, h24, h]
  · rintro (h | h)
    · rw [dialogFonts, h]
    · cases h72 : ext.truetype "arial.ttf" 72 with
      | error f => rw [dialogFonts, h72]
      | ok f => rw [dialogFonts, h72, h]

/-- C6: with no logo file at either fallback path, the orchestrator
completes without failure and produces exactly two images at the
deterministic paths `<wix>/img/banner.bmp` and `<wix>/img/dialog.bmp`,
of sizes 493 x 58 and 493 x 312. -/
theorem main_two_images (sd : String) (fs : String → Bool) (ext : PILExt)
    (h1 : fs (pathJoin (pathJoin (pathJoin sd "..") "static") "favicon.png")
        = false)
    (h2 : fs (pathJoin (pathJoin (pathJoin (pathJoin sd "..") "src-tauri")
        "icons") "icon.png") = false) :
    ∃ b d log,
      mainEntry sd fs ext =
        some ([(pathJoin (pathJoin (pathJoin (pathJoin (pathJoin sd "..")
                  "src-tauri") "wix") "img") "banner.bmp", b),
               (pathJoin (pathJoin (pathJoin (pathJoin (pathJoin sd "..")
                  "src-tauri") "wix") "img") "dialog.bmp", d)], log) ∧
        b.width = 493 ∧ b.height = 58 ∧ d.width = 493 ∧ d.height = 312 := by
  obtain ⟨pb, lb, hbn⟩ := create_banner_shape ext fs
    (pathJoin (pathJoin (pathJoin (pathJoin (pathJoin sd "..") "src-tauri")
      "wix") "img") "banner.bmp") none
  obtain ⟨pd, ld, hdn⟩ := create_dialog_shape ext fs
    (pathJoin (pathJoin (pathJoin (pathJoin (pathJoin sd "..") "src-tauri")
      "wix") "img") "dialog.bmp") none
  have hres : resolveLogoPath (pathJoin sd "..") fs =
      (none, ["Warning: Logo not found, generating without logo"]) := by
    simp [resolveLogoPath, h1, h2]
  have key : mainEntry sd fs ext =
      some ([(pathJoin (pathJoin (pathJoin (pathJoin (pathJoin sd "..")
                "src-tauri") "wix") "img") "banner.bmp", ⟨493, 58, pb⟩),
             (pathJoin (pathJoin (pathJoin (pathJoin (pathJoin sd "..")
                "src-tauri") "wix") "img") "dialog.bmp", ⟨493, 312, pd⟩)],
        ["Warning: Logo not found, generating without logo",
         "Generating WiX installer images...",
         "Output directory: " ++
           pathJoin (pathJoin (pathJoin sd "..") "src-tauri") "wix", ""]
          ++ lb ++ ld ++
          ["", "✓ All images generated successfully!", "",
           "Theme colors used:"]
          ++ COLORS.map (fun kv => "  " ++ kv.1 ++ ": " ++ kv.2)) := by
    simp only [mainEntry, hres, Option.some_bind]
    rw [hbn, hdn]
    simp only [Option.some_bind]
    rfl
  exact ⟨⟨493, 58, pb⟩, ⟨493, 312, pd⟩, _, key, rfl, rfl, rfl, rfl⟩

/-- C7: the orchestrator checks `static/favicon.png` first, then
`src-tauri/icons/icon.png`; with neither present it resolves no logo and
prints the warning; and whatever it resolves is handed unchanged to both
generators, whose two outputs it returns in order. -/
theorem main_logo_resolution (sd : String) (fs : String → Bool)
    (ext : PILExt) :
    (fs (pathJoin (pathJoin (pathJoin sd "..") "static") "favicon.png")
          = true →
        (resolveLogoPath (pathJoin sd "..") fs).1 =
          some (pathJoin (pathJoin (pathJoin sd "..") "static")
            "favicon.png")) ∧
      (fs (pathJoin (pathJoin (pathJoin sd "..") "static") "favicon.png")
            = false →
        fs (pathJoin (pathJoin (pathJoin (pathJoin sd "..") "src-tauri")
              "icons") "icon.png") = true →
        (resolveLogoPath (pathJoin sd "..") fs).1 =
          some (pathJoin (pathJoin (pathJoin (pathJoin sd "..") "src-tauri")
            "icons") "icon.png")) ∧
      (fs (pathJoin (pathJoin (pathJoin sd "..") "static") "favicon.png")
            = false →
        fs (pathJoin (pathJoin (pathJoin (pathJoin sd "..") "src-tauri")
              "icons") "icon.png") = false →
        (resolveLogoPath (pathJoin sd "..") fs).1 = none ∧
          "Warning: Logo not found, generating without logo" ∈
            (resolveLogoPath (pathJoin sd "..") fs).2) ∧
      (∀ r, mainEntry sd fs ext = some r →
        ∃ rb rd,
          create_banner ext fs
              (pathJoin (pathJoin (pathJoin (pathJoin (pathJoin sd "..")
                "src-tauri") "wix") "img") "banner.bmp")
              (resolveLogoPath (pathJoin sd "..") fs).1 = some rb ∧
            create_dialog ext fs
              (pathJoin (pathJoin (pathJoin (pathJoin (pathJoin sd "..")
                "src-tauri") "wix") "img") "dialog.bmp")
              (resolveLogoPath (pathJoin sd "..") fs).1 = some rd ∧
            r.1 = [(pathJoin (pathJoin (pathJoin (pathJoin (pathJoin sd "..")
                "src-tauri") "wix") "img") "banner.bmp", rb.1),
              (pathJoin (pathJoin (pathJoin (pathJoin (pathJoin sd "..")
                "src-tauri") "wix") "img") "dialog.bmp", rd.1)]) := by
  refine ⟨?_, ?_, ?_, ?_⟩
  · intro h
    simp [resolveLogoPath, h]
  · intro h1 h2
    simp [resolveLogoPath, h1, h2]
  · intro h1 h2
    simp [resolveLogoPath, h1, h2]
  · intro r hr
    simp only [mainEntry] at hr
    cases hbn : create_banner ext fs
        (pathJoin (pathJoin (pathJoin (pathJoin (pathJoin sd "..")
          "src-tauri") "wix") "img") "banner.bmp")
        ((resolveLogoPath (pathJoin sd "..") fs).1) with
    | none =>
      rw [hbn] at hr
      simp at hr
    | some rb =>
      cases hdn : create_dialog ext fs
          (pathJoin (pathJoin (pathJoin (pathJoin (pathJoin sd "..")
            "src-tauri") "wix") "img") "dialog.bmp")
          ((resolveLogoPath (pathJoin sd "..") fs).1) with
      | none =>
        rw [hbn, hdn] at hr
        simp at hr
      | some rd =>
        rw [hbn, hdn] at hr
        simp only [Option.some_bind, Option.some.injEq] at hr
        refine ⟨rb, rd, rfl, rfl, ?_⟩
        rw [← hr]

/-- Witness for C6 with an empty filesystem and the probe environment. -/
theorem main_two_images_witness :
    (fun _ : String => false)
        (pathJoin (pathJoin (pathJoin "S" "..") "static") "favicon.png")
        = false ∧
      (fun _ : String => false)
        (pathJoin (pathJoin (pathJoin (pathJoin "S" "..") "src-tauri")
          "icons") "icon.png") = false ∧
      (∃ b d log,
        mainEntry "S" (fun _ => false) extProbe =
          some ([(pathJoin (pathJoin (pathJoin (pathJoin (pathJoin "S" "..")
                    "src-tauri") "wix") "img") "banner.bmp", b),
                 (pathJoin (pathJoin (pathJoin (pathJoin (pathJoin "S" "..")
                    "src-tauri") "wix") "img") "dialog.bmp", d)], log) ∧
          b.width = 493 ∧ b.height = 58 ∧ d.width = 493 ∧ d.height = 312) :=
  ⟨rfl, rfl, main_two_images "S" (fun _ => false) extProbe rfl rfl⟩

